import Mathlib

/-!
Shallow embedding of the RTSP-to-HLS stream supervisor in `src/server/index.js`
(the variant whose line numbers the claims cite).

The server keeps one global mutable record `streamState` (lines 42-48) and
exposes three operations over it: `checkFFmpeg` (the availability probe,
lines 51-92), `startRTSPStream` (lines 103-190), `stopRTSPStream`
(lines 192-214), plus the Express routes `/api/stream/start` (229-295),
`/api/stream/stop` (298-309) and `/api/stream/status` (312-325).

Asynchronous behaviour (promise settlement, the `error`/`close` subprocess
events and the 3000 ms grace timer) is embedded by quantifying over which
event actually occurred during the relevant window, and flattening the
first-settle promise semantics into a total function of that event.
Filesystem effects are embedded as explicit directory listings
(`List String` of file names) passed in and returned.
-/

namespace Webli

/-- The global `streamState` object (index.js lines 42-48).
`ffmpegProcess` holds an abstract process handle (a pid) when a subprocess
handle is stored, `none` when the field is `null`.  Timestamps are abstract
naturals. -/
structure StreamState where
  isRunning : Bool
  rtspUrl : Option String
  startTime : Option Nat
  ffmpegProcess : Option Nat
  hasFFmpeg : Bool
deriving Repr, DecidableEq

/-- Initial value of `streamState` (lines 42-48). -/
def initialStreamState : StreamState :=
  { isRunning := false, rtspUrl := none, startTime := none,
    ffmpegProcess := none, hasFFmpeg := false }

/-- The fixed playlist output path `join(HLS_DIR, 'stream.m3u8')` (line 115). -/
def playlistPath : String := "hls/stream.m3u8"

/-- The playlist URL reported to callers (lines 254 and 319). -/
def hlsStreamUrl : String := "http://localhost:3001/hls/stream.m3u8"

/-! ## Availability probe (`checkFFmpeg`, lines 51-92)

The probe spawns `ffmpeg -version`, sets a `hasOutput` flag from every
`data` chunk on stdout or stderr, and resolves its promise with
- `false` on a spawn `error` event (line 73),
- `code === 0 && hasOutput` on `close` (line 78),
- `false` when the 5000 ms fallback timer fires first (lines 82-85).
The promise keeps whichever of these settles first.  We embed the probe as
a function of which settling event won the race; the chunk counters on the
two streams determine `hasOutput`. -/

/-- Which event settled the probe's promise first. -/
inductive ProbeEvent where
  /-- The `error` event fired (spawn failure), line 71-74. -/
  | spawnError : ProbeEvent
  /-- The `close` event fired before the 5000 ms timer, carrying the exit
  code (`none` = the JS `null` code of a signal-terminated process) and the
  number of `data` chunks seen on stdout and stderr. -/
  | closed (code : Option Int) (stdoutChunks stderrChunks : Nat) : ProbeEvent
  /-- The 5000 ms fallback timer fired before any `error`/`close` event. -/
  | timedOut : ProbeEvent
deriving Repr, DecidableEq

/-- The boolean the probe's promise resolves with (lines 73, 78, 84). -/
def checkFFmpeg : ProbeEvent → Bool
  | .spawnError => false
  | .closed code so se => decide (code = some 0) && (so != 0 || se != 0)
  | .timedOut => false

/-! ## Supervisor state transitions

Every synchronous block of the supervisor that mutates `streamState` is one
step.  All such blocks run to completion on the node event loop, so the
observable states are exactly those between steps. -/

/-- One synchronous state-mutating block of the supervisor. -/
inductive SupEvent where
  /-- The capable branch of `startRTSPStream` up to line 142: kill any old
  handle (no field write, line 110-112), spawn, then store the new handle
  and set `isRunning`, `rtspUrl`, `startTime` (lines 134-142).  When
  `hasFFmpeg` is false the function throws at line 106 before any write. -/
  | startSpawn (url : String) (t pid : Nat) : SupEvent
  /-- The subprocess `error` handler (lines 158-169). -/
  | procError : SupEvent
  /-- The subprocess `close` handler (lines 171-179), with the exit code
  (`none` = JS `null`). -/
  | procClose (code : Option Int) : SupEvent
  /-- The state-clearing part of `stopRTSPStream` (lines 193-201). -/
  | stopCall : SupEvent
deriving Repr, DecidableEq

/-- The `close` handler (lines 171-179): always clears `isRunning` and
`ffmpegProcess`; calls `reject(ProcessRuntimeFailure/ProcessStartFailure
with the code)` exactly when `code !== 0 && code !== null` (line 176).
The boolean returned records whether `reject` was called. -/
def procCloseHandler (st : StreamState) (code : Option Int) :
    StreamState × Bool :=
  ({ st with isRunning := false, ffmpegProcess := none },
   decide (code ≠ some 0) && decide (code ≠ none))

/-- The state written by one supervisor block. -/
def supStep (st : StreamState) : SupEvent → StreamState
  | .startSpawn url t pid =>
      if st.hasFFmpeg then
        { st with ffmpegProcess := some pid, isRunning := true,
                  rtspUrl := some url, startTime := some t }
      else st
  | .procError => { st with isRunning := false, ffmpegProcess := none }
  | .procClose code => (procCloseHandler st code).1
  | .stopCall => { st with ffmpegProcess := none, isRunning := false,
                           rtspUrl := none, startTime := none }

/-! ## `startRTSPStream` (lines 103-190)

After the spawn, three things can settle the returned promise:
the `error` handler rejects (line 168); the `close` handler rejects with a
message carrying the exit code, but only when the code is neither 0 nor
`null` (lines 176-178); and the 3000 ms grace timer resolves with the
playlist path if `streamState.isRunning` is still true, else rejects with a
generic timeout message that carries no exit code (lines 182-188).
We embed the per-call behaviour as a function of which subprocess event (if
any) happened inside the grace window. -/

/-- What happened to the subprocess within the 3000 ms grace window. -/
inductive GraceEvent where
  /-- Neither `error` nor `close` fired before the timer: still alive. -/
  | stillAlive : GraceEvent
  /-- The `error` event fired (spawn failure). -/
  | spawnErrored : GraceEvent
  /-- The `close` event fired with the given exit code
  (`none` = JS `null`). -/
  | exited (code : Option Int) : GraceEvent
deriving Repr, DecidableEq

/-- The settlement of the promise returned by `startRTSPStream`. -/
inductive StartResult where
  /-- `resolve(outputPath)` from the grace timer (line 184). -/
  | resolved (playlist : String) : StartResult
  /-- `reject(error)` from the `error` handler (line 168). -/
  | rejectedSpawnError : StartResult
  /-- `reject` from the `close` handler (line 177); the error message
  embeds the captured exit code `c`. -/
  | rejectedExitCode (c : Int) : StartResult
  /-- `reject` from the grace timer (line 186): the generic
  `FFmpeg failed to start within timeout period` message, which carries
  no exit code. -/
  | rejectedTimeout : StartResult
deriving Repr, DecidableEq

/-- Outcome of a call to `startRTSPStream`. -/
inductive StartOutcome where
  /-- The synchronous throw at line 106 (`hasFFmpeg` false). -/
  | threwNoFFmpeg : StartOutcome
  /-- The returned promise settled as recorded. -/
  | promise (r : StartResult) : StartOutcome
deriving Repr, DecidableEq

/-- `startRTSPStream(rtspUrl)` (lines 103-190): final state and outcome,
given the subprocess event inside the grace window.  When the `close`
handler declines to reject (code 0 or `null`), the promise is still
unsettled when the timer fires, and `isRunning` is false by then, so the
timer's generic rejection wins (lines 182-188). -/
def startRTSPStream (st : StreamState) (url : String) (t pid : Nat)
    (ev : GraceEvent) : StreamState × StartOutcome :=
  if st.hasFFmpeg then
    let st1 := supStep st (.startSpawn url t pid)
    match ev with
    | .stillAlive => (st1, .promise (.resolved playlistPath))
    | .spawnErrored => (supStep st1 .procError, .promise .rejectedSpawnError)
    | .exited code =>
        let st2 := supStep st1 (.procClose code)
        match code with
        | some c =>
            if c = 0 then (st2, .promise .rejectedTimeout)
            else (st2, .promise (.rejectedExitCode c))
        | none => (st2, .promise .rejectedTimeout)
  else (st, .threwNoFFmpeg)

/-! ## `stopRTSPStream` (lines 192-214) and the segment directory

The cleanup reads the directory listing and runs a `forEach` that unlinks
every file ending in `.m3u8` or `.ts` (lines 205-210).  The `try` block
wraps the whole loop, so an exception thrown by one `unlinkSync` aborts the
iteration; the `catch` logs it and returns normally (lines 211-213).
We embed the directory as the list of file names in directory order and the
possibility of per-file unlink failure as a predicate `fails`. -/

/-- Kernel-computable `String.endsWith`: suffix test on the character
lists. -/
def strEndsWith (s suffix : String) : Bool :=
  List.isSuffixOf suffix.data s.data

/-- The deletion filter `file.endsWith('.m3u8') || file.endsWith('.ts')`
(line 207). -/
def matchesCleanup (f : String) : Bool :=
  strEndsWith f ".m3u8" || strEndsWith f ".ts"

/-- The cleanup `forEach` (lines 206-210) under the whole-loop `try`:
returns the files remaining in the directory and whether an unlink error
was caught (and logged).  A failing unlink aborts the loop, leaving the
failing file and everything after it untouched. -/
def cleanupFiles (fails : String → Bool) : List String → List String × Bool
  | [] => ([], false)
  | f :: rest =>
      if matchesCleanup f then
        if fails f then (f :: rest, true)
        else cleanupFiles fails rest
      else
        let (rem, e) := cleanupFiles fails rest
        (f :: rem, e)

/-- `stopRTSPStream()` (lines 192-214): kills any live handle, clears the
in-memory state (exactly `supStep st .stopCall`), then runs the cleanup.
Returns the new state, the directory after cleanup, and whether a cleanup
error was logged.  The function never throws: the only fallible part is
inside the `try`. -/
def stopRTSPStream (st : StreamState) (dir : List String)
    (fails : String → Bool) : StreamState × List String × Bool :=
  let st' := supStep st .stopCall
  let (dir', logged) := cleanupFiles fails dir
  (st', dir', logged)

/-! ## Boundary API routes -/

/-- JS truthiness of the extracted `rtspUrl` field: `!rtspUrl` is true when
the field is absent (`undefined`/`null`) or the empty string (line 232). -/
def jsFalsyStr : Option String → Bool
  | none => true
  | some s => s == ""

/-- Response of `POST /api/stream/start` (lines 229-295). -/
inductive StartRouteResult where
  /-- 400 `RTSP URL is required` (line 233). -/
  | badRequest : StartRouteResult
  /-- 500 `FFmpeg not available` from the fast capability gate
  (lines 236-248). -/
  | capabilityError : StartRouteResult
  /-- 200 with the playlist URL (lines 252-257). -/
  | ok (hlsUrl : String) : StartRouteResult
  /-- 500 `FFmpeg not available` from the catch branch whose rejection
  message contains `not available`/`not support` (lines 262-273). -/
  | errNotAvailable : StartRouteResult
  /-- 500 `Failed to start RTSP stream conversion` (lines 274-286). -/
  | errStartFailed : StartRouteResult
deriving Repr, DecidableEq

/-- HTTP status code of each start-route response. -/
def StartRouteResult.httpStatus : StartRouteResult → Nat
  | .badRequest => 400
  | .capabilityError => 500
  | .ok _ => 200
  | .errNotAvailable => 500
  | .errStartFailed => 500

/-- The catch branch's classification of a rejection (line 262):
`error.message.includes('not available') || error.message.includes('not
support')`.  The timeout message (line 186) contains `may not support`;
the exit-code message (line 177) contains neither substring (it says
`doesn't support`); a spawn error's message is the OS error text (e.g.
`spawn ffmpeg ENOENT`), which contains neither. -/
def rejectionLooksLikeCapability : StartResult → Bool
  | .rejectedTimeout => true
  | _ => false

/-- `POST /api/stream/start` (lines 229-295): final state, response, and
the number of subprocesses spawned by the call. -/
def streamStartRoute (st : StreamState) (body : Option String)
    (t pid : Nat) (ev : GraceEvent) :
    StreamState × StartRouteResult × Nat :=
  if jsFalsyStr body then (st, .badRequest, 0)
  else if !st.hasFFmpeg then (st, .capabilityError, 0)
  else
    let (st', outcome) := startRTSPStream st (body.getD "") t pid ev
    match outcome with
    | .threwNoFFmpeg => (st', .errStartFailed, 0)
    | .promise (.resolved _) => (st', .ok hlsStreamUrl, 1)
    | .promise r =>
        if rejectionLooksLikeCapability r then (st', .errNotAvailable, 1)
        else (st', .errStartFailed, 1)

/-- `POST /api/stream/stop` (lines 298-309): runs `stopRTSPStream` and
answers 200 `{message: 'RTSP stream stopped'}`; since `stopRTSPStream`
never throws, the route always acknowledges.  The boolean is the
acknowledgment (true = 200 ack, no error payload). -/
def streamStopRoute (st : StreamState) (dir : List String)
    (fails : String → Bool) : StreamState × List String × Bool :=
  let (st', dir', _) := stopRTSPStream st dir fails
  (st', dir', true)

/-- Response of `GET /api/stream/status` (lines 312-325). -/
structure StatusResponse where
  isRunning : Bool
  hlsAvailable : Bool
  hlsUrl : Option String
  rtspUrl : Option String
  startTime : Option Nat
  hasFFmpeg : Bool
deriving Repr, DecidableEq

/-- `GET /api/stream/status` (lines 312-325): `hlsExists` is the result of
the fresh `fs.existsSync(join(HLS_DIR, 'stream.m3u8'))` check (line 314). -/
def statusRoute (st : StreamState) (hlsExists : Bool) : StatusResponse :=
  { isRunning := st.isRunning
    hlsAvailable := hlsExists
    hlsUrl := if hlsExists then some hlsStreamUrl else none
    rtspUrl := st.rtspUrl
    startTime := st.startTime
    hasFFmpeg := st.hasFFmpeg }

/-! ## Derived notions used by the theorems -/

/-- A capable, idle supervisor state (the state after a successful probe,
before any start). -/
def capableIdle : StreamState :=
  { initialStreamState with hasFFmpeg := true }

/-- A concrete active state: capable, with a stored handle and a running
job (the state right after the spawn block of a start). -/
def activeState : StreamState :=
  { isRunning := true, rtspUrl := some "rtsp://cam/live",
    startTime := some 0, ffmpegProcess := some 7, hasFFmpeg := true }

/-- The in-memory `Idle` shape: not running, no handle, no source address,
no start timestamp (what `stopRTSPStream` writes at lines 196-201). -/
def idleCleared (st : StreamState) : Prop :=
  st.isRunning = false ∧ st.ffmpegProcess = none ∧
  st.rtspUrl = none ∧ st.startTime = none

/-- The spec's handle/state invariant, phrased on the embedded state: the
stored handle is non-null exactly when the job is active.  In the code the
spec states `Starting` and `Running` are the states with `isRunning = true`
(set at spawn, line 140, before the grace transition) and `Idle`/`Failed`
are those with `isRunning = false`. -/
def handleStateInv (st : StreamState) : Prop :=
  st.ffmpegProcess ≠ none ↔ st.isRunning = true

/-- Cleanup with no unlink failures on a directory of stream artifacts
empties the directory and logs nothing. -/
theorem cleanupFiles_all_match (dir : List String)
    (h : ∀ f ∈ dir, matchesCleanup f = true) :
    cleanupFiles (fun _ => false) dir = ([], false) := by
  induction dir with
  | nil => rfl
  | cons f rest ih =>
      have hf := h f (by simp)
      simp only [cleanupFiles, hf, if_true, if_false]
      exact ih fun g hg => h g (by simp [hg])

/-! ## Claims -/

/-- C5: the availability probe returns `true` iff the probed subprocess
closed before the 5-time-unit timeout with exit status 0 having produced at
least one chunk of output on stdout or stderr; a spawn error, a non-zero
(or null) exit status, or a timeout all yield `false`. -/
theorem C5_probe_true_iff (ev : ProbeEvent) :
    checkFFmpeg ev = true ↔
      ∃ so se : Nat,
        ev = .closed (some 0) so se ∧ (so ≠ 0 ∨ se ≠ 0) := by
  cases ev <;> simp [checkFFmpeg] <;> aesop

/-- C8: the status route copies `isRunning` from the in-memory state, takes
`hlsAvailable` from the fresh filesystem check alone (independent of the
in-memory state), and reports a non-null `hlsUrl` exactly when the playlist
file exists. -/
theorem C8_status_route (st st' : StreamState) (hlsExists : Bool) :
    (statusRoute st hlsExists).isRunning = st.isRunning ∧
    (statusRoute st hlsExists).hlsAvailable = hlsExists ∧
    (statusRoute st hlsExists).hlsAvailable
      = (statusRoute st' hlsExists).hlsAvailable ∧
    ((statusRoute st hlsExists).hlsUrl ≠ none ↔ hlsExists = true) := by
  cases hlsExists <;> simp [statusRoute]

/-- C10: the cleanup only removes files (the surviving listing is a
sublist of the original) and never removes a file whose name ends in
neither `.m3u8` nor `.ts`: the subsequence of non-matching files is
untouched, whatever unlink failures occur. -/
theorem C10_cleanup_frame (dir : List String) (fails : String → Bool) :
    List.Sublist (cleanupFiles fails dir).1 dir ∧
    (cleanupFiles fails dir).1.filter (fun f => !matchesCleanup f)
      = dir.filter (fun f => !matchesCleanup f) := by
  induction dir with
  | nil => exact ⟨List.Sublist.refl _, rfl⟩
  | cons f rest ih =>
      by_cases hm : matchesCleanup f
      · by_cases hf : fails f
        · simp [cleanupFiles, hm, hf]
        · refine ⟨?_, ?_⟩
          · simpa [cleanupFiles, hm, hf] using List.Sublist.cons f ih.1
          · simp [cleanupFiles, hm, hf, ih.2]
      · refine ⟨?_, ?_⟩
        · simpa [cleanupFiles, hm] using List.Sublist.cons₂ f ih.1
        · simp [cleanupFiles, hm, ih.2]

/-- C2: with the capability flag false, a start request spawns no
subprocess at all; when the request is otherwise well-formed (non-empty
source address) it fails fast with the capability-unavailable error and
leaves the state untouched. -/
theorem C2_capability_gate (st : StreamState) (body : Option String)
    (t pid : Nat) (ev : GraceEvent) (h : st.hasFFmpeg = false) :
    (streamStartRoute st body t pid ev).2.2 = 0 ∧
    (jsFalsyStr body = false →
      (streamStartRoute st body t pid ev).2.1 = .capabilityError ∧
      (streamStartRoute st body t pid ev).1 = st) := by
  cases hb : jsFalsyStr body <;> simp [streamStartRoute, h, hb]

/-- Witness for C2 at a concrete incapable state and request. -/
theorem C2_capability_gate_witness :
    initialStreamState.hasFFmpeg = false ∧
    ((streamStartRoute initialStreamState (some "rtsp://cam/live") 0 1
        .stillAlive).2.2 = 0 ∧
     (jsFalsyStr (some "rtsp://cam/live") = false →
       (streamStartRoute initialStreamState (some "rtsp://cam/live") 0 1
          .stillAlive).2.1 = .capabilityError ∧
       (streamStartRoute initialStreamState (some "rtsp://cam/live") 0 1
          .stillAlive).1 = initialStreamState)) :=
  ⟨rfl, C2_capability_gate initialStreamState (some "rtsp://cam/live") 0 1
    .stillAlive rfl⟩

/-- C9: a start request whose source address is missing or empty is
answered 400 (a 4xx), spawns nothing, and leaves the in-memory state
unchanged. -/
theorem C9_missing_source (st : StreamState) (body : Option String)
    (t pid : Nat) (ev : GraceEvent) (h : jsFalsyStr body = true) :
    (streamStartRoute st body t pid ev).2.1 = .badRequest ∧
    (streamStartRoute st body t pid ev).2.1.httpStatus = 400 ∧
    (streamStartRoute st body t pid ev).2.2 = 0 ∧
    (streamStartRoute st body t pid ev).1 = st := by
  simp [streamStartRoute, h, StartRouteResult.httpStatus]

/-- Witness for C9: the empty-string source address on a capable state. -/
theorem C9_missing_source_witness :
    jsFalsyStr (some "") = true ∧
    ((streamStartRoute capableIdle (some "") 0 1 .stillAlive).2.1
        = .badRequest ∧
     (streamStartRoute capableIdle (some "") 0 1 .stillAlive).2.1.httpStatus
        = 400 ∧
     (streamStartRoute capableIdle (some "") 0 1 .stillAlive).2.2 = 0 ∧
     (streamStartRoute capableIdle (some "") 0 1 .stillAlive).1
        = capableIdle) :=
  ⟨rfl, C9_missing_source capableIdle (some "") 0 1 .stillAlive rfl⟩

/-- C3: the handle/state invariant holds initially and is preserved by
every supervisor step — capable start spawn, incapable start (no write),
subprocess error, subprocess exit with any code, and stop.  Hence no exit
path leaves a handle stored while the state is inactive (`Idle`/`Failed`,
i.e. `isRunning = false`). -/
theorem C3_handle_invariant (st : StreamState) (ev : SupEvent)
    (h : handleStateInv st) :
    handleStateInv initialStreamState ∧ handleStateInv (supStep st ev) := by
  refine ⟨by simp [handleStateInv, initialStreamState], ?_⟩
  cases ev with
  | startSpawn url t pid =>
      by_cases hc : st.hasFFmpeg <;>
        simp [handleStateInv, supStep, hc] <;> exact h
  | procError => simp [handleStateInv, supStep]
  | procClose code => simp [handleStateInv, supStep, procCloseHandler]
  | stopCall => simp [handleStateInv, supStep]

/-- Witness for C3: one step from a concrete active state. -/
theorem C3_handle_invariant_witness :
    handleStateInv activeState ∧
    (handleStateInv initialStreamState ∧
     handleStateInv (supStep activeState (.procClose (some 1)))) :=
  ⟨by simp [handleStateInv, activeState],
   C3_handle_invariant activeState (.procClose (some 1))
     (by simp [handleStateInv, activeState])⟩

/-- C4: when the subprocess of a running job closes with integer exit code
`c`, the handler always clears the in-memory job (handle null, not
running), and it raises the runtime-failure rejection (the `Failed`
classification) exactly when `c ≠ 0`; a zero code is treated as a clean
end (`Idle`, no error). -/
theorem C4_running_exit (st : StreamState) (c : Int)
    (h : st.isRunning = true) :
    ((procCloseHandler st (some c)).2 = true ↔ c ≠ 0) ∧
    (procCloseHandler st (some c)).1.isRunning = false ∧
    (procCloseHandler st (some c)).1.ffmpegProcess = none := by
  simp [procCloseHandler]

/-- Witness for C4 at a concrete running state and exit code 1. -/
theorem C4_running_exit_witness :
    activeState.isRunning = true ∧
    (((procCloseHandler activeState (some 1)).2 = true ↔ (1 : Int) ≠ 0) ∧
     (procCloseHandler activeState (some 1)).1.isRunning = false ∧
     (procCloseHandler activeState (some 1)).1.ffmpegProcess = none) :=
  ⟨rfl, C4_running_exit activeState 1 rfl⟩

/-- C1 counterexample: on a capable state, a subprocess that exits with
code 0 inside the grace window makes `startRTSPStream` reject with the
generic timeout error (lines 182-188), not with an error carrying the
captured exit code: the `close` handler only rejects for codes that are
neither 0 nor null (line 176). -/
theorem C1_counterexample :
    (startRTSPStream capableIdle "rtsp://cam/live" 0 1
        (.exited (some 0))).2 = .promise .rejectedTimeout ∧
    (startRTSPStream capableIdle "rtsp://cam/live" 0 1
        (.exited (some 0))).2 ≠ .promise (.rejectedExitCode 0) := by
  exact ⟨rfl, by decide⟩

/-- C1 (amended): on a capable state, if the job is still alive when the
grace timer fires, start resolves with the playlist location and the state
reports running; if the subprocess exited with a nonzero integer code,
start rejects with the error carrying that code; if it exited with code 0
or with a null code (signal), start rejects with the generic timeout error
that carries no exit code. -/
theorem C1_grace_outcome (st : StreamState) (url : String) (t pid : Nat)
    (c : Int) (h : st.hasFFmpeg = true) (hc : c ≠ 0) :
    ((startRTSPStream st url t pid .stillAlive).2
        = .promise (.resolved playlistPath) ∧
     (startRTSPStream st url t pid .stillAlive).1.isRunning = true) ∧
    (startRTSPStream st url t pid (.exited (some c))).2
        = .promise (.rejectedExitCode c) ∧
    (startRTSPStream st url t pid (.exited (some 0))).2
        = .promise .rejectedTimeout ∧
    (startRTSPStream st url t pid (.exited none)).2
        = .promise .rejectedTimeout := by
  simp [startRTSPStream, supStep, h, hc]

/-- Witness for C1 (amended) at a concrete capable state and exit code 1. -/
theorem C1_grace_outcome_witness :
    capableIdle.hasFFmpeg = true ∧ (1 : Int) ≠ 0 ∧
    (((startRTSPStream capableIdle "rtsp://cam/live" 0 1 .stillAlive).2
        = .promise (.resolved playlistPath) ∧
      (startRTSPStream capableIdle "rtsp://cam/live" 0 1
         .stillAlive).1.isRunning = true) ∧
     (startRTSPStream capableIdle "rtsp://cam/live" 0 1
        (.exited (some 1))).2 = .promise (.rejectedExitCode 1) ∧
     (startRTSPStream capableIdle "rtsp://cam/live" 0 1
        (.exited (some 0))).2 = .promise .rejectedTimeout ∧
     (startRTSPStream capableIdle "rtsp://cam/live" 0 1
        (.exited none)).2 = .promise .rejectedTimeout) :=
  ⟨rfl, by decide,
   C1_grace_outcome capableIdle "rtsp://cam/live" 0 1 1 rfl (by decide)⟩

/-- C6: on a directory holding only stream artifacts (playlists and
segments) with no unlink failures, two consecutive stops both leave the
in-memory state `Idle`, both leave the segment directory empty, neither
logs a cleanup error, and the stop route acknowledges both calls —
including when no job was ever active. -/
theorem C6_stop_idempotent (st : StreamState) (dir : List String)
    (h : ∀ f ∈ dir, matchesCleanup f = true) :
    idleCleared (stopRTSPStream st dir (fun _ => false)).1 ∧
    (stopRTSPStream st dir (fun _ => false)).2.1 = [] ∧
    (stopRTSPStream st dir (fun _ => false)).2.2 = false ∧
    idleCleared (stopRTSPStream (stopRTSPStream st dir (fun _ => false)).1
        (stopRTSPStream st dir (fun _ => false)).2.1 (fun _ => false)).1 ∧
    (stopRTSPStream (stopRTSPStream st dir (fun _ => false)).1
        (stopRTSPStream st dir (fun _ => false)).2.1
        (fun _ => false)).2.1 = [] ∧
    (stopRTSPStream (stopRTSPStream st dir (fun _ => false)).1
        (stopRTSPStream st dir (fun _ => false)).2.1
        (fun _ => false)).2.2 = false ∧
    (streamStopRoute st dir (fun _ => false)).2.2 = true ∧
    (streamStopRoute (stopRTSPStream st dir (fun _ => false)).1
        (stopRTSPStream st dir (fun _ => false)).2.1
        (fun _ => false)).2.2 = true := by
  have h1 := cleanupFiles_all_match dir h
  have h2 := cleanupFiles_all_match ([] : List String) (by simp)
  simp [stopRTSPStream, streamStopRoute, supStep, idleCleared, h1, h2]

/-- Witness for C6: two stops from the pristine initial state on a
directory holding one playlist and one segment. -/
theorem C6_stop_idempotent_witness :
    (∀ f ∈ ["stream.m3u8", "segment000.ts"], matchesCleanup f = true) ∧
    (idleCleared (stopRTSPStream initialStreamState
        ["stream.m3u8", "segment000.ts"] (fun _ => false)).1 ∧
     (stopRTSPStream initialStreamState ["stream.m3u8", "segment000.ts"]
        (fun _ => false)).2.1 = [] ∧
     (stopRTSPStream initialStreamState ["stream.m3u8", "segment000.ts"]
        (fun _ => false)).2.2 = false ∧
     idleCleared (stopRTSPStream (stopRTSPStream initialStreamState
          ["stream.m3u8", "segment000.ts"] (fun _ => false)).1
        (stopRTSPStream initialStreamState ["stream.m3u8", "segment000.ts"]
          (fun _ => false)).2.1 (fun _ => false)).1 ∧
     (stopRTSPStream (stopRTSPStream initialStreamState
          ["stream.m3u8", "segment000.ts"] (fun _ => false)).1
        (stopRTSPStream initialStreamState ["stream.m3u8", "segment000.ts"]
          (fun _ => false)).2.1 (fun _ => false)).2.1 = [] ∧
     (stopRTSPStream (stopRTSPStream initialStreamState
          ["stream.m3u8", "segment000.ts"] (fun _ => false)).1
        (stopRTSPStream initialStreamState ["stream.m3u8", "segment000.ts"]
          (fun _ => false)).2.1 (fun _ => false)).2.2 = false ∧
     (streamStopRoute initialStreamState ["stream.m3u8", "segment000.ts"]
        (fun _ => false)).2.2 = true ∧
     (streamStopRoute (stopRTSPStream initialStreamState
          ["stream.m3u8", "segment000.ts"] (fun _ => false)).1
        (stopRTSPStream initialStreamState ["stream.m3u8", "segment000.ts"]
          (fun _ => false)).2.1 (fun _ => false)).2.2 = true) :=
  ⟨by decide,
   C6_stop_idempotent initialStreamState ["stream.m3u8", "segment000.ts"]
     (by decide)⟩

/-- C7 counterexample: with the directory `["a.ts", "b.ts"]` and an unlink
failure on `a.ts` only, `b.ts` — deletable and due for deletion — survives
the cleanup: the single `try` wraps the whole loop (lines 204-213), so the
first unlink error aborts the iteration and the remaining files are not
deleted. -/
theorem C7_counterexample :
    matchesCleanup "b.ts" = true ∧
    (fun f => decide (f = "a.ts")) "b.ts" = false ∧
    cleanupFiles (fun f => decide (f = "a.ts")) ["a.ts", "b.ts"]
      = (["a.ts", "b.ts"], true) := by
  refine ⟨by decide, by decide, by decide⟩

/-- C7 (amended): the cleanup deletes matching files in directory order
only up to the first unlink failure; that failure is caught and logged
(not propagated: the stop route still acknowledges), but the failing file
and every file after it are left in place. -/
theorem C7_cleanup_first_error (st : StreamState) (pre post : List String)
    (f : String) (fails : String → Bool)
    (hpre : ∀ g ∈ pre, fails g = false)
    (hf : matchesCleanup f = true) (hfail : fails f = true) :
    cleanupFiles fails (pre ++ f :: post)
      = (pre.filter (fun g => !matchesCleanup g) ++ f :: post, true) ∧
    (streamStopRoute st (pre ++ f :: post) fails).2.2 = true := by
  refine ⟨?_, rfl⟩
  induction pre with
  | nil => simp [cleanupFiles, hf, hfail]
  | cons g rest ih =>
      have hg := hpre g (by simp)
      have ih2 := ih fun x hx => hpre x (by simp [hx])
      by_cases hm : matchesCleanup g <;> simp [cleanupFiles, hm, hg, ih2]

/-- Witness for C7 (amended): a clean playlist before the failing segment,
and a deletable segment after it. -/
theorem C7_cleanup_first_error_witness :
    (∀ g ∈ ["stream.m3u8"], (fun x => decide (x = "a.ts")) g = false) ∧
    matchesCleanup "a.ts" = true ∧
    (fun x => decide (x = "a.ts")) "a.ts" = true ∧
    (cleanupFiles (fun x => decide (x = "a.ts"))
        (["stream.m3u8"] ++ "a.ts" :: ["b.ts"])
      = (["stream.m3u8"].filter (fun g => !matchesCleanup g)
          ++ "a.ts" :: ["b.ts"], true) ∧
     (streamStopRoute initialStreamState
        (["stream.m3u8"] ++ "a.ts" :: ["b.ts"])
        (fun x => decide (x = "a.ts"))).2.2 = true) :=
  ⟨by decide, by decide, by decide,
   C7_cleanup_first_error initialStreamState ["stream.m3u8"] ["b.ts"]
     "a.ts" (fun x => decide (x = "a.ts")) (by decide) (by decide)
     (by decide)⟩

end Webli
